import Mathlib

/-!
Verification of the strategy combinator algebra of
src/src/hypothesis/searchstrategy/strategies.py: the abstract
SearchStrategy contract, the union (OneOfStrategy), transform
(MappedSearchStrategy) and filter (FilteredStrategy) combinators, the
smart constructor one_of_strategies, and the entropy-threading draw
protocol (do_draw).

The entropy source (the "data" object, with its index counter, its
draw delegation and the integer_range primitive), and the assume
signal, live outside this file (hypothesis.internal.conjecture and
hypothesis.control); they are modelled from the spec where noted.
Python exceptions become explicit result constructors.  Recursion
through the combinator tree and through the filter retry loop is
indexed by a fuel parameter counting draw steps; every statement about
do_draw quantifies over or fixes the fuel explicitly.
-/

namespace Hypothesis

/-- Modelled from the spec: the per-attempt Entropy Source.  It
exposes a monotonically non-decreasing consumption counter (index) and
supplies ordered draws; the underlying randomness is represented as an
infinite stream of naturals read at the current index.  The concrete
implementation (hypothesis.internal.conjecture) is outside the source
excerpt. -/
structure Entropy where
  stream : Nat → Nat
  index : Nat

/-- Outcome of one do_draw call.  ok carries the value and the entropy
source as left after the draw; unsatisfiedAssumption is the
assume-style attempt-abandonment signal raised by hypothesis.control;
notImplementedError models the Python NotImplementedError raised by
the base SearchStrategy.do_draw; indexError models an out-of-range
list subscript; outOfFuel means the fuel budget of the model was
exhausted before the program returned. -/
inductive DrawResult (α : Type) where
  | ok (value : α) (next : Entropy)
  | unsatisfiedAssumption
  | notImplementedError (msg : String)
  | indexError
  | outOfFuel

/-- The strategy combinator tree of strategies.py.  base models an
external concrete strategy (an arbitrary generation procedure);
abstractBase models an instance of a SearchStrategy subtype, with the
given type name, that did not override do_draw; oneOf is
OneOfStrategy (element_strategies); mapped is MappedSearchStrategy
(mapped_strategy, pack); filtered is FilteredStrategy
(filtered_strategy, condition); flatMapped models the FlatMapStrategy
returned by SearchStrategy.flatmap, whose class lives in
hypothesis.searchstrategy.flatmapped outside the source excerpt and is
modelled from the spec: draw x from the wrapped strategy, then draw
from expand x. -/
inductive Strategy (α : Type) where
  | base (gen : Entropy → DrawResult α)
  | abstractBase (typeName : String)
  | oneOf (ss : List (Strategy α))
  | mapped (s : Strategy α) (pack : α → α)
  | filtered (s : Strategy α) (condition : α → Bool)
  | flatMapped (s : Strategy α) (expand : α → Strategy α)

/-- Modelled from the spec: integer_range(data, low, high) from
hypothesis.internal.conjecture.utils draws a uniformly distributed
integer in the inclusive range from low to high, consuming entropy:
the next stream value is reduced modulo the range size and the
consumption counter advances by one. -/
def integer_range (data : Entropy) (low high : Nat) : Nat × Entropy :=
  (low + data.stream data.index % (high + 1 - low),
   { data with index := data.index + 1 })

/-- Fuel-indexed interpretation of do_draw.  data.draw(strategy)
delegates to strategy.do_draw(data) (spec section 6), so recursive
draws are direct recursive calls here.  Each case transcribes the
corresponding Python method: the base SearchStrategy.do_draw raises
NotImplementedError naming the concrete type; OneOfStrategy.do_draw
draws an index with integer_range(data, 0, n - 1) and delegates to
that constituent; MappedSearchStrategy.do_draw packs the wrapped draw;
FilteredStrategy.do_draw records start_index = data.index, draws,
returns satisfying values, and otherwise calls
assume(data.index > start_index): on no progress the attempt is
abandoned, on progress the loop re-enters with the new entropy.  Fuel
decreases at every nested draw; outOfFuel never occurs in any run the
theorems below describe. -/
def doDraw : Nat → Strategy α → Entropy → DrawResult α
  | 0, _, _ => .outOfFuel
  | Nat.succ fuel, strat, data =>
    match strat with
    | .base gen => gen data
    | .abstractBase typeName => .notImplementedError (typeName ++ ".do_draw")
    | .oneOf ss =>
      let r := integer_range data 0 (ss.length - 1)
      match ss[r.1]? with
      | some s => doDraw fuel s r.2
      | none => .indexError
    | .mapped s pack =>
      match doDraw fuel s data with
      | .ok v d2 => .ok (pack v) d2
      | r => r
    | .flatMapped s expand =>
      match doDraw fuel s data with
      | .ok x d2 => doDraw fuel (expand x) d2
      | r => r
    | .filtered s condition =>
      match doDraw fuel s data with
      | .ok value d2 =>
        if condition value then .ok value d2
        else if data.index < d2.index then doDraw fuel (.filtered s condition) d2
        else .unsatisfiedAssumption
      | r => r

/-- Python exception raised at construction or combination time.  The
source raises the built-in ValueError in every such place. -/
inductive PyError where
  | valueError (msg : String)
deriving DecidableEq

/-- OneOfStrategy.__init__: tuples the strategies, requires at least 2
of them (raising ValueError otherwise), and stores them as
element_strategies. -/
def OneOfStrategy_init (strategies : List (Strategy α)) :
    Except PyError (Strategy α) :=
  if strategies.length ≤ 1 then
    .error (.valueError "Need at least 2 strategies to choose amongst")
  else
    .ok (.oneOf strategies)

/-- one_of_strategies(xs): helper function for unioning multiple
strategies; empty input raises ValueError, a single strategy is
returned unchanged, otherwise OneOfStrategy(xs) is constructed. -/
def one_of_strategies : List (Strategy α) → Except PyError (Strategy α)
  | [] => .error (.valueError "Cannot join an empty list of strategies")
  | [x] => .ok x
  | xs => OneOfStrategy_init xs

/-- The element_strategies field of a union combinator (empty for
every other node). -/
def element_strategies : Strategy α → List (Strategy α)
  | .oneOf ss => ss
  | _ => []

/-- The right operand of the union operator: in Python any object may
appear there, so the model distinguishes a SearchStrategy instance
from any non-strategy value, the latter carried by its repr string. -/
inductive Operand (α : Type) where
  | strat (s : Strategy α)
  | nonStrategy (r : String)

/-- SearchStrategy.map: returns MappedSearchStrategy(pack, self). -/
def SearchStrategy.map (self : Strategy α) (pack : α → α) : Strategy α :=
  .mapped self pack

/-- SearchStrategy.filter: returns FilteredStrategy(condition, self). -/
def SearchStrategy.filter (self : Strategy α) (condition : α → Bool) :
    Strategy α :=
  .filtered self condition

/-- SearchStrategy.flatmap: returns FlatMapStrategy(expand, self). -/
def SearchStrategy.flatmap (self : Strategy α) (expand : α → Strategy α) :
    Strategy α :=
  .flatMapped self expand

/-- SearchStrategy.__or__: raises ValueError when the operand is not a
SearchStrategy, and otherwise returns one_of_strategies((self,
other)).  The check happens when the operator is applied: no entropy
source is involved. -/
def SearchStrategy.or (self : Strategy α) (other : Operand α) :
    Except PyError (Strategy α) :=
  match other with
  | .nonStrategy r =>
    .error (.valueError ("Cannot | a SearchStrategy with " ++ r))
  | .strat o => one_of_strategies [self, o]

/-- A constant strategy: produces the given value while consuming zero
entropy, like the constant generators of the spec scenarios. -/
def constStrat (v : α) : Strategy α :=
  .base (fun d => .ok v d)

/-- An entropy source reading the given list (zero past its end) with
the consumption counter at zero. -/
def mkEntropy (xs : List Nat) : Entropy :=
  { stream := fun i => xs.getD i 0, index := 0 }

/-- The produced value of a draw outcome, if any. -/
def drawnValue : DrawResult α → Option α
  | .ok v _ => some v
  | _ => none

/-- The entropy index left after a draw outcome, if it produced a
value. -/
def drawnIndex : DrawResult α → Option Nat
  | .ok _ d => some d.index
  | _ => none

/-- Whether a construction outcome is a raised ValueError. -/
def isValueError : Except PyError (Strategy α) → Bool
  | .error (.valueError _) => true
  | _ => false

/-- The message of a raised ValueError, if any. -/
def errorMsg : Except PyError (Strategy α) → Option String
  | .error (.valueError m) => some m
  | _ => none

/-- The strategy wrapped by a transform, filter or bind combinator. -/
def wrappedOf : Strategy α → Option (Strategy α)
  | .mapped s _ => some s
  | .filtered s _ => some s
  | .flatMapped s _ => some s
  | _ => none

end Hypothesis

namespace Hypothesis

/-- C1: each iteration of FilteredStrategy.do_draw records
start_index = data.index before drawing from the wrapped strategy;
when the drawn value is rejected by the predicate and the index did
not strictly advance past start_index, the generation attempt is
abandoned with the assume-style unsatisfied-assumption signal rather
than retried (so the loop never spins on a wrapped strategy that can
reject while consuming zero entropy), and when the index did strictly
advance, the loop re-enters on the entropy state left by the rejected
draw, so progress is measured from the new index. -/
theorem filtered_progress_or_abandon {α : Type} (s : Strategy α)
    (condition : α → Bool) (fuel : Nat) (d d2 : Entropy) (v : α)
    (hdraw : doDraw fuel s d = .ok v d2)
    (hrej : condition v = false) :
    (d2.index ≤ d.index →
      doDraw (fuel + 1) (.filtered s condition) d = .unsatisfiedAssumption)
    ∧ (d.index < d2.index →
      doDraw (fuel + 1) (.filtered s condition) d
        = doDraw fuel (.filtered s condition) d2) := by
  constructor <;> intro h
  · simp [doDraw, hdraw, hrej, Nat.not_lt.mpr h]
  · simp [doDraw, hdraw, hrej, h]

/-- Witness for C1: the constant strategy producing 0 consumes no
entropy, the predicate demanding 1 rejects it, and the filtered draw
abandons the attempt. -/
theorem filtered_progress_or_abandon_w :
    doDraw 2 (Strategy.filtered (constStrat (0 : Nat)) (fun x => decide (x = 1)))
        (mkEntropy []) = .unsatisfiedAssumption :=
  (filtered_progress_or_abandon (constStrat 0) (fun x => decide (x = 1)) 1
    (mkEntropy []) (mkEntropy []) 0 rfl (by decide)).1 (Nat.le_refl _)

/-- C2: one_of_strategies on a sequence of length at least 2 returns a
union combinator whose constituent count equals the input length; on a
one-element sequence it returns that very strategy with no wrapper; on
the empty sequence it raises the empty-union ValueError; and
OneOfStrategy.__init__ itself rejects any sequence of fewer than 2
strategies. -/
theorem one_of_strategies_arity {α : Type} (xs ys : List (Strategy α))
    (s : Strategy α) (h2 : 2 ≤ xs.length) (h1 : ys.length ≤ 1) :
    one_of_strategies xs = .ok (.oneOf xs)
    ∧ (element_strategies (.oneOf xs)).length = xs.length
    ∧ one_of_strategies [s] = .ok s
    ∧ one_of_strategies ([] : List (Strategy α))
        = .error (.valueError "Cannot join an empty list of strategies")
    ∧ OneOfStrategy_init ys
        = .error (.valueError "Need at least 2 strategies to choose amongst") := by
  refine ⟨?_, rfl, rfl, rfl, ?_⟩
  · match xs, h2 with
    | a :: b :: t, _ => simp [one_of_strategies, OneOfStrategy_init]
  · simp [OneOfStrategy_init, h1]

/-- Witness for C2: a two-element union is built as stated. -/
theorem one_of_strategies_arity_w :
    one_of_strategies [constStrat (1 : Nat), constStrat 2]
      = .ok (.oneOf [constStrat 1, constStrat 2]) :=
  (one_of_strategies_arity [constStrat 1, constStrat 2] [] (constStrat 3)
    (by decide) (by decide)).1

/-- C3: whenever the wrapped strategy draws value v taking the entropy
source from d to d2, MappedSearchStrategy.do_draw on the same entropy
source returns exactly pack v and leaves the entropy source in the
same state d2: the transform itself draws nothing. -/
theorem mapped_pack_of_draw {α : Type} (s : Strategy α) (pack : α → α)
    (fuel : Nat) (d d2 : Entropy) (v : α)
    (hdraw : doDraw fuel s d = .ok v d2) :
    doDraw (fuel + 1) (.mapped s pack) d = .ok (pack v) d2 := by
  simp [doDraw, hdraw]

/-- Witness for C3: mapping successor over the constant strategy for 1
yields 2 with the entropy source untouched. -/
theorem mapped_pack_of_draw_w :
    doDraw 2 (Strategy.mapped (constStrat (1 : Nat)) (fun x => x + 1))
        (mkEntropy []) = .ok 2 (mkEntropy []) :=
  mapped_pack_of_draw (constStrat 1) (fun x => x + 1) 1
    (mkEntropy []) (mkEntropy []) 1 rfl

/-- C4: OneOfStrategy.do_draw first draws an index with
integer_range(data, 0, n - 1); the drawn index always lies in the
inclusive range below n, the result is exactly the recursive draw of
constituent i on the advanced entropy source with nothing added, and
every index below n is realised by some entropy stream (the choice is
over the full inclusive range, as the uniform primitive requires). -/
theorem oneOf_draw_delegates {α : Type} (ss : List (Strategy α))
    (fuel : Nat) (d : Entropy) (h2 : 2 ≤ ss.length) :
    (integer_range d 0 (ss.length - 1)).1 < ss.length
    ∧ (∃ t, ss[(integer_range d 0 (ss.length - 1)).1]? = some t
        ∧ doDraw (fuel + 1) (.oneOf ss) d
            = doDraw fuel t (integer_range d 0 (ss.length - 1)).2)
    ∧ (∀ j, j < ss.length →
        (integer_range { stream := fun _ => j, index := d.index }
            0 (ss.length - 1)).1 = j) := by
  have hlen : ss.length - 1 + 1 - 0 = ss.length := by omega
  have hi : (integer_range d 0 (ss.length - 1)).1 < ss.length := by
    simp [integer_range, hlen]
    exact Nat.mod_lt _ (by omega)
  refine ⟨hi, ⟨ss[(integer_range d 0 (ss.length - 1)).1], ?_, ?_⟩, ?_⟩
  · exact List.getElem?_eq_getElem hi
  · simp [doDraw, List.getElem?_eq_getElem hi]
  · intro j hj
    simp [integer_range, hlen, Nat.mod_eq_of_lt hj]

/-- Witness for C4: a two-constituent union with stream value 1 picks
index 1 and delegates to that constituent. -/
theorem oneOf_draw_delegates_w :
    ∃ t, ([constStrat (1 : Nat), constStrat 2])[(integer_range (mkEntropy [1]) 0 1).1]?
          = some t
      ∧ doDraw 2 (.oneOf [constStrat (1 : Nat), constStrat 2]) (mkEntropy [1])
          = doDraw 1 t (integer_range (mkEntropy [1]) 0 1).2 :=
  (oneOf_draw_delegates [constStrat 1, constStrat 2] 1 (mkEntropy [1])
    (by decide)).2.1

/-- C5: whenever the wrapped draw produces a value satisfying the
predicate, FilteredStrategy.do_draw returns that exact value and
entropy state with no progress requirement imposed on the satisfying
iteration; in particular filtering the constant strategy for 1 with
the predicate demanding 1 returns 1 immediately on every entropy
source, with zero retries and zero entropy consumed. -/
theorem filtered_pass_returns {α : Type} (s : Strategy α)
    (condition : α → Bool) (fuel : Nat) (d d2 : Entropy) (v : α)
    (hdraw : doDraw fuel s d = .ok v d2)
    (hacc : condition v = true) :
    doDraw (fuel + 1) (.filtered s condition) d = .ok v d2
    ∧ (∀ (d0 : Entropy) (f0 : Nat),
        doDraw (f0 + 2)
            (SearchStrategy.filter (constStrat (1 : Nat)) (fun x => decide (x = 1)))
            d0 = .ok 1 d0) := by
  constructor
  · simp [doDraw, hdraw, hacc]
  · intro d0 f0
    simp [doDraw, SearchStrategy.filter, constStrat]

/-- Witness for C5: filtering the constant strategy for 1 with the
predicate demanding 1 returns 1 with the entropy source untouched. -/
theorem filtered_pass_returns_w :
    doDraw 2 (Strategy.filtered (constStrat (1 : Nat)) (fun x => decide (x = 1)))
        (mkEntropy []) = .ok 1 (mkEntropy []) :=
  (filtered_pass_returns (constStrat 1) (fun x => decide (x = 1)) 1
    (mkEntropy []) (mkEntropy []) 1 rfl (by decide)).1

/-- C6: the union operator applied to a non-strategy operand raises
ValueError at combination time (SearchStrategy.__or__ takes no entropy
source, so the failure cannot wait until draw time), and applied to a
strategy operand it returns a strategy without error. -/
theorem or_rejects_non_strategy {α : Type} (s : Strategy α) (r : String)
    (o : Strategy α) :
    SearchStrategy.or s (.nonStrategy r)
        = .error (.valueError ("Cannot | a SearchStrategy with " ++ r))
    ∧ SearchStrategy.or s (.strat o) = .ok (.oneOf [s, o]) :=
  ⟨rfl, rfl⟩

/-- C7: the base SearchStrategy.do_draw raises NotImplementedError for
every entropy source, with a message naming the offending concrete
type. -/
theorem base_do_draw_unimplemented {α : Type} (typeName : String)
    (fuel : Nat) (d : Entropy) :
    doDraw (fuel + 1) (Strategy.abstractBase typeName : Strategy α) d
      = .notImplementedError (typeName ++ ".do_draw") := by
  simp [doDraw]

/-- C8: map, filter, flatmap and the union operator each return a new
strategy (never the receiver itself) that embeds the receiver
unchanged as its wrapped constituent; in this embedding strategies are
immutable values and all per-attempt state lives in the entropy source
threaded through doDraw, so construction leaves the receiver exactly
as it was. -/
theorem construction_returns_new_strategy {α : Type} (s : Strategy α)
    (pack : α → α) (condition : α → Bool) (expand : α → Strategy α)
    (o : Strategy α) :
    (wrappedOf (SearchStrategy.map s pack) = some s
      ∧ SearchStrategy.map s pack ≠ s)
    ∧ (wrappedOf (SearchStrategy.filter s condition) = some s
      ∧ SearchStrategy.filter s condition ≠ s)
    ∧ (wrappedOf (SearchStrategy.flatmap s expand) = some s
      ∧ SearchStrategy.flatmap s expand ≠ s)
    ∧ (SearchStrategy.or s (.strat o) = .ok (.oneOf [s, o])
      ∧ Strategy.oneOf [s, o] ≠ s) := by
  refine ⟨⟨rfl, ?_⟩, ⟨rfl, ?_⟩, ⟨rfl, ?_⟩, rfl, ?_⟩ <;>
    · intro h
      have hs := congrArg sizeOf h
      simp only [SearchStrategy.map, SearchStrategy.filter,
        SearchStrategy.flatmap, Strategy.mapped.sizeOf_spec,
        Strategy.filtered.sizeOf_spec, Strategy.flatMapped.sizeOf_spec,
        Strategy.oneOf.sizeOf_spec, List.cons.sizeOf_spec,
        List.nil.sizeOf_spec] at hs
      omega

/-- C9: the union operator does not flatten nested unions: the union
of a two-element union with a third strategy is a union combinator
with exactly 2 constituents, the inner union and the third strategy;
consequently, over the four equiprobable two-value entropy streams,
the third constituent is produced twice (probability one half) and
each inner value once (probability one quarter each), not one third
apiece. -/
theorem or_does_not_flatten {α : Type} (A B C : Strategy α) :
    SearchStrategy.or A (.strat B) = .ok (.oneOf [A, B])
    ∧ SearchStrategy.or (Strategy.oneOf [A, B]) (.strat C)
        = .ok (.oneOf [Strategy.oneOf [A, B], C])
    ∧ (element_strategies (.oneOf [Strategy.oneOf [A, B], C])).length = 2
    ∧ (List.map
        (fun xs => drawnValue (doDraw 3
          (Strategy.oneOf [Strategy.oneOf [constStrat (1 : Nat), constStrat 2],
            constStrat 3]) (mkEntropy xs)))
        [[0, 0], [0, 1], [1, 0], [1, 1]])
      = [some 1, some 2, some 3, some 3] :=
  ⟨rfl, rfl, rfl, rfl⟩

/-- C10: the empty-union failure, the direct under-2-constituent
construction failure, and the non-strategy union-operand failure all
return the one ValueError constructor, so the conditions are not
distinguishable by exception type, while their messages differ. -/
theorem construction_errors_value_error (ys : List (Strategy Nat))
    (r : String) (hy : ys.length ≤ 1) :
    isValueError (one_of_strategies ([] : List (Strategy Nat))) = true
    ∧ isValueError (OneOfStrategy_init ys) = true
    ∧ isValueError (SearchStrategy.or (constStrat 1) (.nonStrategy r)) = true
    ∧ errorMsg (one_of_strategies ([] : List (Strategy Nat)))
        ≠ errorMsg (OneOfStrategy_init ys)
    ∧ errorMsg (one_of_strategies ([] : List (Strategy Nat)))
        ≠ errorMsg (SearchStrategy.or (constStrat 1) (.nonStrategy "None")) := by
  refine ⟨rfl, ?_, rfl, ?_, by decide⟩
  · simp [OneOfStrategy_init, hy, isValueError]
  · simp [OneOfStrategy_init, hy, one_of_strategies, errorMsg]

/-- Witness for C10: the direct construction failure on the empty
sequence is a ValueError. -/
theorem construction_errors_value_error_w :
    isValueError (OneOfStrategy_init ([] : List (Strategy Nat))) = true :=
  (construction_errors_value_error [] "None" (by decide)).2.1

end Hypothesis
